import Mathlib

/-!
Verification of the incremental cache-search engine of `apttool.py`
(welbornprod/apttool).

The development shallowly embeds the components the specification is
about:

* `pkg_install_state`, `get_pkg_description`, `is_pkg_match`
  (search-predicate layer, `apttool.py` lines 999-1020, 1075-1117,
  1473-1509);
* `IterCache._pre_iter_open` / `IterCache.iter_open`
  (incremental catalog, lines 1960-2011);
* `search_itercache` and the relevant part of `cmd_search`
  (lines 1660-1716 and 677-707);
* `HistoryLine.matches` and the counting loop of `cmd_history`
  (lines 2144-2168 and 369-398).

A compiled regular-expression pattern is embedded as its observable
behaviour under `re_pat.search(s)`: a function `String → Bool` that
tells whether the pattern is found somewhere in `s`.  The regex engine
itself (`re.compile`) is external to the repository and is passed as a
parameter where compilation can fail.
-/

/-- A compiled pattern, observed through `re_pat.search`: `p s = true`
iff `re_pat.search(s)` returns a match object (not `None`). -/
def Pat : Type := String → Bool

/-- Enum `InstallStateFilter` (`apttool.py` 1738-1743):
`uninstalled = -1`, `every = 0`, `installed = 1`. -/
inductive InstallStateFilter
  | uninstalled
  | every
  | installed
deriving DecidableEq, Repr

/-- One package record as the apt backend exposes it.  Field `name` is
`pkg.name`; `description` is the description string the old/new apt
APIs yield (`''` when absent); `installed` is whether an installed
version exists (`pkg.isInstalled()` / `pkg.installed is not None`);
`has_versions` is the backend's version-history flag;
`fullname_pretty` / `fullname_full` are `pkg.get_fullname(pretty=True)`
and `pkg.get_fullname(pretty=False)`. -/
structure Package where
  name : String
  description : String
  installed : Bool
  has_versions : Bool
  fullname_pretty : String
  fullname_full : String
deriving DecidableEq, Repr

/-- Function `get_pkg_description` (`apttool.py` 999-1020): retrieves
the package description via old or new apt API, returning the empty
string on failure or when there is no description.  The `Package`
embedding carries that resulting string directly in its `description`
field. -/
def get_pkg_description (pkg : Package) : String :=
  pkg.description

/-- Function `pkg_install_state(pkg, expected)` (`apttool.py`
1473-1509) for a non-`None` `expected`: `every` always passes;
`installed` requires the actual install state; `uninstalled` requires
its negation. -/
def pkg_install_state (pkg : Package) (expected : InstallStateFilter) : Bool :=
  match expected with
  | .every => true
  | .installed => pkg.installed
  | .uninstalled => !pkg.installed

/-- The inner `matchfunc(targetstr, reverse)` of `is_pkg_match`
(`apttool.py` 1101-1103): `(rematch is None)` when `reverse`, else
`(rematch is not None)`. -/
def matchfunc (re_pat : Pat) (targetstr : String) (reverse : Bool) : Bool :=
  if reverse then !(re_pat targetstr) else re_pat targetstr

/-- Function
`is_pkg_match(re_pat, pkg, desc_search=…, reverse=…, installstate=…)`
(`apttool.py` 1075-1117): gate on install state, then try the name,
then (when `desc_search`) try a non-empty description. -/
def is_pkg_match (re_pat : Pat) (pkg : Package)
    (desc_search reverse : Bool) (installstate : InstallStateFilter) : Bool :=
  if !(pkg_install_state pkg installstate) then
    false
  else if matchfunc re_pat pkg.name reverse then
    true
  else if !desc_search then
    false
  else
    let pkgdesc := get_pkg_description pkg
    if (!(pkgdesc == "")) && matchfunc re_pat pkgdesc reverse then
      true
    else
      false

/-- Boolean list-prefix test, a helper for `containsSub`. -/
def isPrefixB : List Char → List Char → Bool
  | [], _ => true
  | _ :: _, [] => false
  | a :: as, b :: bs => a == b && isPrefixB as bs

/-- Substring containment on character lists (used to give concrete
literal regex patterns such as `"foo"` an executable `search`). -/
def containsSub (needle : List Char) : List Char → Bool
  | [] => isPrefixB needle []
  | c :: t => isPrefixB needle (c :: t) || containsSub needle t

/-- The compiled pattern for the literal regex `"foo"`:
`re.search("foo", s)` finds a match exactly when `"foo"` occurs as a
substring of `s`. -/
def patFoo : Pat := fun s => containsSub "foo".toList s.toList

/-- Example record `{name:"foo-dev", description:"", installed:false}`
from the spec's end-to-end scenarios. -/
def pkgFooDev : Package :=
  { name := "foo-dev", description := "", installed := false,
    has_versions := true, fullname_pretty := "foo-dev",
    fullname_full := "foo-dev:amd64" }

/-- Example record
`{name:"bar", description:"contains foo utility", installed:true}`
from the spec's end-to-end scenarios. -/
def pkgBar : Package :=
  { name := "bar", description := "contains foo utility", installed := true,
    has_versions := true, fullname_pretty := "bar",
    fullname_full := "bar:amd64" }

/-- Example versionless record (cruft, to be skipped by the catalog). -/
def pkgCruft : Package :=
  { name := "cruft", description := "", installed := false,
    has_versions := false, fullname_pretty := "cruft",
    fullname_full := "cruft:amd64" }

/-- The apt backend an `IterCache` connects to: its package records
(`apt_pkg.Cache(...).packages`) and the configured architectures
(`apt_pkg.get_architectures()`). -/
structure ABackend where
  packages : List Package
  architectures : List String
deriving DecidableEq, Repr

/-- The mutable state of an `IterCache` instance that
`_pre_iter_open` / `iter_open` touch: the connected backend handle
`_cache` (`None` until a connection is made), the name index `_set`,
the multi-arch fullname index `_fullnameset`, the cached sorted key
list `_sorted_set`, the `_weakref` package-object table, the
multi-arch flag and `rough_size` (unset until `_pre_iter_open`). -/
structure IterCacheState where
  _cache : Option ABackend
  _set : List String
  _fullnameset : List String
  _sorted_set : Option (List String)
  _weakref : List (String × Package)
  _have_multi_arch : Bool
  rough_size : Option Nat
deriving DecidableEq, Repr

/-- The state produced by `IterCache.__init__(do_open=False)`
(`apttool.py` 1912-1924): no backend connection, empty indexes. -/
def initState : IterCacheState :=
  { _cache := none, _set := [], _fullnameset := [], _sorted_set := none,
    _weakref := [], _have_multi_arch := false, rough_size := none }

/-- The observable operations `_pre_iter_open` performs, named after
the statements of `apttool.py` 1965-1978. -/
inductive PreOpenOp
  | runCallbacks
  | connectCache
  | createDepCache
  | createRecords
  | createSourceList
  | readMainList
  | clearSet
  | clearFullnameSet
  | discardSortedSet
  | clearWeakref
  | setMultiArch
  | setRoughSize
deriving DecidableEq, Repr

/-- The statement order of `_pre_iter_open` (`apttool.py` 1965-1978):
the backend is reconnected (`self._cache = apt_pkg.Cache(progress)`
and its companion handles) first, and the index-clearing resets run
after it. -/
def pre_iter_open_ops : List PreOpenOp :=
  [.runCallbacks, .connectCache, .createDepCache, .createRecords,
   .createSourceList, .readMainList, .clearSet, .clearFullnameSet,
   .discardSortedSet, .clearWeakref, .setMultiArch, .setRoughSize]

/-- Method `IterCache._pre_iter_open` (`apttool.py` 1960-1978) as a
state transformer over the backend being connected: reconnect, then
clear `_set`, `_fullnameset`, `_sorted_set`, `_weakref`, then set
`_have_multi_arch` and `rough_size`.  The `_depcache`, `_records` and
`_list` handles are backend-internal and subsumed in the `_cache`
connection. -/
def pre_iter_open (backend : ABackend) (st : IterCacheState) : IterCacheState :=
  let st1 := { st with _cache := some backend }
  let st2 := { st1 with _set := [] }
  let st3 := { st2 with _fullnameset := [] }
  let st4 := { st3 with _sorted_set := none }
  let st5 := { st4 with _weakref := [] }
  let st6 := { st5 with _have_multi_arch := decide (1 < backend.architectures.length) }
  { st6 with rough_size := some backend.packages.length }

/-- Lookup `apt.Cache.__getitem__(pkgname)`: find the record by its
pretty fullname in the connected backend. -/
def getitem (backend : ABackend) (pkgname : String) : Option Package :=
  backend.packages.find? (fun p => p.fullname_pretty == pkgname)

/-- One step of `iter_open`'s enumeration: the backend record `src`
being iterated, the value `yielded` handed to the consumer
(`self.__getitem__(pkgname)`), and the `IterCacheState` at the moment
of the `yield`. -/
structure YieldStep where
  src : Package
  yielded : Option Package
  state : IterCacheState
deriving DecidableEq, Repr

/-- The `for pkg in self._cache.packages` loop of `IterCache.iter_open`
(`apttool.py` 1995-2008): skip records without versions; insert the
pretty fullname into `_set` (and, under multi-arch, the full name into
`_fullnameset`); then yield `self.__getitem__(pkgname)`.  Returns the
trace of yields with their states, and the final state.  The batched
progress callback (lines 1996-1998) only reports percentages and
touches no catalog state, so it is not modelled. -/
def iter_open_loop (backend : ABackend) :
    List Package → IterCacheState → List YieldStep × IterCacheState
  | [], st => ([], st)
  | pkg :: rest, st =>
    if pkg.has_versions then
      let pkgname := pkg.fullname_pretty
      let st1 := { st with
        _set := st._set.insert pkgname,
        _fullnameset :=
          if st._have_multi_arch then
            st._fullnameset.insert pkg.fullname_full
          else st._fullnameset }
      let r := iter_open_loop backend rest st1
      (⟨pkg, getitem backend pkgname, st1⟩ :: r.1, r.2)
    else
      iter_open_loop backend rest st

/-- The result of a full `iter_open` run: whether the implicit
`_pre_iter_open` was performed, the yield trace, and the final state. -/
structure IterOpenResult where
  preOpenPerformed : Bool
  steps : List YieldStep
  final : IterCacheState
deriving DecidableEq, Repr

/-- Method `IterCache.iter_open` (`apttool.py` 1980-2011): if
`self._cache is None`, run `_pre_iter_open` first (connecting to
`backend`); then enumerate the connected backend's packages. -/
def iter_open (backend : ABackend) (st : IterCacheState) : IterOpenResult :=
  match st._cache with
  | none =>
    let st0 := pre_iter_open backend st
    let r := iter_open_loop backend backend.packages st0
    ⟨true, r.1, r.2⟩
  | some cb =>
    let r := iter_open_loop cb cb.packages st
    ⟨false, r.1, r.2⟩

/-- The filter predicate `is_match` built by `search_itercache`
(`apttool.py` 1706-1713), applied to a yielded catalog value. -/
def is_match_opt (re_pat : Pat) (desc_search reverse : Bool)
    (installstate : InstallStateFilter) : Option Package → Bool
  | some p => is_pkg_match re_pat p desc_search reverse installstate
  | none => false

/-- The records `search_itercache` yields (`apttool.py` 1714-1716):
the catalog's incremental yields filtered through `is_pkg_match`. -/
def search_itercache_yields (re_pat : Pat) (desc_search reverse : Bool)
    (installstate : InstallStateFilter) (backend : ABackend)
    (st : IterCacheState) : List (Option Package) :=
  ((iter_open backend st).steps.map YieldStep.yielded).filter
    (is_match_opt re_pat desc_search reverse installstate)

/-- Observable events of a search run: the catalog's
`_pre_iter_open`, the outcome of `re.compile` (a failure raises
`BadSearchQuery(regex, ex)`, carrying the pattern text and the regex
engine's error), and each yielded match. -/
inductive SEvent
  | preOpenEv
  | compileOkEv
  | compileFailEv (pattern : String) (err : String)
  | yieldEv (p : Option Package)
deriving DecidableEq, Repr

/-- Generator `search_itercache` (`apttool.py` 1660-1716) as an event
trace, parametrised by the external regex engine
`compile : regex → case_insensitive → Except err Pat`.  The body runs
at the first pull: it compiles the pattern (raising `BadSearchQuery`
on `re.error`, before any catalog access by this generator), then
drives `cache.iter_open` — which performs `_pre_iter_open` only when
the supplied cache state has no backend connection yet — and yields
the matching records. -/
def search_itercache_trace (compile : String → Bool → Except String Pat)
    (regex : String) (case_insensitive desc_search reverse : Bool)
    (installstate : InstallStateFilter) (backend : ABackend)
    (st : IterCacheState) : List SEvent :=
  match compile regex case_insensitive with
  | .error e => [.compileFailEv regex e]
  | .ok re_pat =>
    let r := iter_open backend st
    .compileOkEv ::
      ((if r.preOpenPerformed then [SEvent.preOpenEv] else []) ++
        ((r.steps.map YieldStep.yielded).filter
          (is_match_opt re_pat desc_search reverse installstate)).map
          SEvent.yieldEv)

/-- Command `cmd_search` (`apttool.py` 677-707, default options): it
creates `IterCache(do_open=False)`, calls `cache._pre_iter_open()`
eagerly (line 680, to display `rough_size`), and only then iterates
`search_itercache` with that pre-opened cache, which compiles the
pattern at its first pull. -/
def cmd_search_trace (compile : String → Bool → Except String Pat)
    (query : String) (case_insensitive desc_search reverse : Bool)
    (installstate : InstallStateFilter) (backend : ABackend) : List SEvent :=
  SEvent.preOpenEv ::
    search_itercache_trace compile query case_insensitive desc_search reverse
      installstate backend (pre_iter_open backend initState)

/-- The regex engine's message for the unbalanced pattern `"("`. -/
def reErrUnbalanced : String :=
  "missing ), unterminated subpattern at position 0"

/-- A concrete external regex engine on which every compile fails
(what `re.compile` does on the pattern `"("`). -/
def badCompile : String → Bool → Except String Pat :=
  fun _ _ => .error reErrUnbalanced

/-- One parsed line of dpkg.log, `HistoryLine` (`apttool.py`
2031-2142).  Fields that `__init__` defaults to `None` are `Option`;
`timeStr` stands for `str(self.time)`, which is always a string. -/
structure HistoryLine where
  line : Option String
  name : Option String
  packagename : Option String
  version : Option String
  arch : Option String
  statustype : Option String
  action : Option String
  timeStr : String
deriving DecidableEq, Repr

/-- The `targets` tuple of `HistoryLine.matches` (`apttool.py`
2153-2162). -/
def historyline_targets (h : HistoryLine) : List (Option String) :=
  [h.line, h.name, h.packagename, h.version, h.arch, h.statustype,
   h.action, some h.timeStr]

/-- Method `HistoryLine.matches(repat)` (`apttool.py` 2144-2168):
`if not repat: return True` (a `None` filter matches every line,
although the docstring announces `False`); otherwise search every
truthy target and return whether any hits. -/
def historyline_matches (h : HistoryLine) (repat : Option Pat) : Bool :=
  match repat with
  | none => true
  | some pat =>
    (historyline_targets h).any (fun t =>
      match t with
      | none => false
      | some s => !(s == "") && pat s)

/-- The `cnt_exceeded` closure of `cmd_history` (`apttool.py`
381-387): with a truthy `count` (non-`None`, non-zero) the count is
exceeded at `i >= count`; otherwise never. -/
def cnt_exceeded (count : Option Nat) (i : Nat) : Bool :=
  match count with
  | some c => if c == 0 then false else decide (c ≤ i)
  | none => false

/-- The printing/counting loop of `cmd_history` (`apttool.py`
389-396) over the parsed history lines: lines matching the filter are
printed and counted; the loop breaks once `cnt_exceeded(total)`.
Returns the printed lines and the final total. -/
def cmd_history_loop (repat : Option Pat) (count : Option Nat) :
    List HistoryLine → Nat → List HistoryLine × Nat
  | [], total => ([], total)
  | h :: rest, total =>
    if historyline_matches h repat then
      let total1 := total + 1
      if cnt_exceeded count total1 then ([h], total1)
      else
        let r := cmd_history_loop repat count rest total1
        (h :: r.1, r.2)
    else
      if cnt_exceeded count total then ([], total)
      else cmd_history_loop repat count rest total

/-- Command `cmd_history(filtertext, count)` (`apttool.py` 369-398)
after filter compilation: `repat` is `None` when no filter text was
supplied. -/
def cmd_history_run (repat : Option Pat) (count : Option Nat)
    (lines : List HistoryLine) : List HistoryLine × Nat :=
  cmd_history_loop repat count lines 0

/-- The catalog of the spec's end-to-end scenarios:
`[{name:"foo-dev", description:"", installed:false},
  {name:"bar", description:"contains foo utility", installed:true}]`
on a single-architecture platform. -/
def bkScenario : ABackend :=
  { packages := [pkgFooDev, pkgBar], architectures := ["amd64"] }

/-- The scenario catalog on a multi-architecture platform. -/
def bkMulti : ABackend :=
  { packages := [pkgFooDev, pkgBar], architectures := ["amd64", "i386"] }

/-- The scenario catalog with a leading versionless cruft record. -/
def bkWithCruft : ABackend :=
  { packages := [pkgCruft, pkgFooDev, pkgBar], architectures := ["amd64"] }

lemma is_pkg_match_gate_false (re_pat : Pat) (pkg : Package)
    (desc_search reverse : Bool) (installstate : InstallStateFilter)
    (h : pkg_install_state pkg installstate = false) :
    is_pkg_match re_pat pkg desc_search reverse installstate = false := by
  simp [is_pkg_match, h]

lemma is_pkg_match_name_hit (re_pat : Pat) (pkg : Package)
    (desc_search reverse : Bool) (installstate : InstallStateFilter)
    (hgate : pkg_install_state pkg installstate = true)
    (hname : matchfunc re_pat pkg.name reverse = true) :
    is_pkg_match re_pat pkg desc_search reverse installstate = true := by
  simp [is_pkg_match, hgate, hname]

/-- C1: for a record passing the install-state gate, the name is tried
first and short-circuits: with `reverse = false` a name hit returns
`true` for every description (the description is not inspected); with
`reverse = true` a name miss returns `true` for every description; in
particular a name-matching record with empty description is still a
match when `reverse = false` and description search is enabled. -/
theorem spec_C1 (re_pat : Pat) (pkg : Package)
    (desc_search : Bool) (installstate : InstallStateFilter)
    (hgate : pkg_install_state pkg installstate = true) :
    (re_pat pkg.name = true →
      ∀ d : String,
        is_pkg_match re_pat { pkg with description := d }
          desc_search false installstate = true) ∧
    (re_pat pkg.name = false →
      ∀ d : String,
        is_pkg_match re_pat { pkg with description := d }
          desc_search true installstate = true) ∧
    (re_pat pkg.name = true → pkg.description = "" →
      is_pkg_match re_pat pkg true false installstate = true) := by
  have hgate' : ∀ d : String,
      pkg_install_state { pkg with description := d } installstate = true := by
    intro d
    cases installstate <;> simp [pkg_install_state] at hgate ⊢ <;> exact hgate
  refine ⟨?_, ?_, ?_⟩
  · intro hname d
    exact is_pkg_match_name_hit re_pat _ desc_search false installstate
      (hgate' d) (by simp [matchfunc, hname])
  · intro hname d
    exact is_pkg_match_name_hit re_pat _ desc_search true installstate
      (hgate' d) (by simp [matchfunc, hname])
  · intro hname _
    exact is_pkg_match_name_hit re_pat pkg true false installstate
      hgate (by simp [matchfunc, hname])

/-- Witness for C1 at the concrete record `foo-dev` and pattern `"foo"`. -/
theorem spec_C1_witness :
    is_pkg_match patFoo pkgFooDev true false .every = true :=
  (spec_C1 patFoo pkgFooDev true .every rfl).2.2 rfl rfl

/-- C4: a record failing the install-state gate is rejected at once:
the result is `false` for every pattern, every `desc_search` and every
`reverse` flag (so the pattern is never consulted and negation does
not apply to the gate). -/
theorem spec_C4 (pkg : Package) (installstate : InstallStateFilter)
    (h : pkg_install_state pkg installstate = false) :
    ∀ (re_pat : Pat) (desc_search reverse : Bool),
      is_pkg_match re_pat pkg desc_search reverse installstate = false := by
  intro re_pat desc_search reverse
  exact is_pkg_match_gate_false re_pat pkg desc_search reverse installstate h

/-- Witness for C4: the not-installed record `foo-dev` under the
`installed`-only filter is rejected for the pattern `"foo"` with
negation on. -/
theorem spec_C4_witness :
    is_pkg_match patFoo pkgFooDev true true .installed = false :=
  spec_C4 pkgFooDev .installed rfl patFoo true true

/-- C2 counterexample: for the record `bar` (which passes the `every`
gate) and pattern `"foo"` with description search enabled, the negated
query does NOT equal the boolean negation of the positive query: the
name `"bar"` misses the pattern, so the negated query short-circuits
to `true`, while the positive query also returns `true` via the
description `"contains foo utility"`. -/
theorem spec_C2_counterexample :
    ¬ (is_pkg_match patFoo pkgBar true true .every
        = !(is_pkg_match patFoo pkgBar true false .every)) := by
  decide

/-- C2 (amended): records excluded by the install-state gate return
`false` under both polarities; the negation duality
`matches(r, q·negate) = !matches(r, q)` holds among gate-passing
records when description search is disabled, or when the record's
description is empty — but not in general with description search
enabled (see the counterexample). -/
theorem spec_C2 (re_pat : Pat) (pkg : Package)
    (installstate : InstallStateFilter) :
    (pkg_install_state pkg installstate = false →
      is_pkg_match re_pat pkg true true installstate = false ∧
      is_pkg_match re_pat pkg true false installstate = false) ∧
    (pkg_install_state pkg installstate = true →
      is_pkg_match re_pat pkg false true installstate
        = !(is_pkg_match re_pat pkg false false installstate)) ∧
    (pkg_install_state pkg installstate = true → pkg.description = "" →
      is_pkg_match re_pat pkg true true installstate
        = !(is_pkg_match re_pat pkg true false installstate)) := by
  refine ⟨?_, ?_, ?_⟩
  · intro h
    exact ⟨is_pkg_match_gate_false re_pat pkg true true installstate h,
      is_pkg_match_gate_false re_pat pkg true false installstate h⟩
  · intro h
    simp only [is_pkg_match, h, matchfunc]
    cases re_pat pkg.name <;> simp
  · intro h hdesc
    simp only [is_pkg_match, h, matchfunc, get_pkg_description, hdesc]
    cases re_pat pkg.name <;> simp

/-- Witness for C2 at the gate-passing, empty-description record
`foo-dev` and pattern `"foo"`. -/
theorem spec_C2_witness :
    is_pkg_match patFoo pkgFooDev true true .every
      = !(is_pkg_match patFoo pkgFooDev true false .every) :=
  (spec_C2 patFoo pkgFooDev .every).2.2 rfl rfl

/-- C3 counterexample: the negated `"foo"` search over the scenario
catalog (description search on, install filter `any`, default
not-yet-opened cache) does NOT yield neither record — it yields `bar`:
`bar`'s name misses the pattern, so the negated name test
short-circuits to `true` before the description is inspected. -/
theorem spec_C3_counterexample :
    search_itercache_yields patFoo true true .every bkScenario initState
      ≠ ([] : List (Option Package)) := by
  decide

/-- C3 (amended): the negated `"foo"` search over the scenario catalog
yields exactly the record `bar`: `foo-dev` is excluded (its name
matches, and its empty description cannot match), while `bar` is
reported immediately because its name does not match. -/
theorem spec_C3 :
    search_itercache_yields patFoo true true .every bkScenario initState
      = [some pkgBar] := by
  decide

lemma find?_eq_of_nodup_map (l : List Package)
    (hnd : (l.map Package.fullname_pretty).Nodup)
    (p : Package) (hp : p ∈ l) :
    l.find? (fun q => q.fullname_pretty == p.fullname_pretty) = some p := by
  induction l with
  | nil => cases hp
  | cons q t ih =>
    simp only [List.map_cons, List.nodup_cons] at hnd
    rcases List.mem_cons.mp hp with rfl | hpt
    · exact List.find?_cons_of_pos _ (by simp)
    · have hne : (q.fullname_pretty == p.fullname_pretty) = false := by
        by_contra hb
        rw [Bool.not_eq_false, beq_iff_eq] at hb
        exact hnd.1 (hb ▸ List.mem_map_of_mem Package.fullname_pretty hpt)
      rw [List.find?_cons_of_neg _ (by simp [hne])]
      exact ih hnd.2 hpt

lemma iter_open_loop_src (bk : ABackend) (pkgs : List Package)
    (st : IterCacheState) :
    (iter_open_loop bk pkgs st).1.map YieldStep.src
      = pkgs.filter (fun p => p.has_versions) := by
  induction pkgs generalizing st with
  | nil => simp [iter_open_loop]
  | cons pkg rest ih =>
    cases hv : pkg.has_versions with
    | true => simp [iter_open_loop, hv, ih]
    | false => simp [iter_open_loop, hv, ih]

lemma iter_open_loop_yielded (bk : ABackend) (pkgs : List Package)
    (st : IterCacheState)
    (hnd : (bk.packages.map Package.fullname_pretty).Nodup)
    (hsub : ∀ p ∈ pkgs, p ∈ bk.packages) :
    ∀ s ∈ (iter_open_loop bk pkgs st).1,
      s.yielded = some s.src ∧ s.src.has_versions = true := by
  induction pkgs generalizing st with
  | nil => intro s hs; simp [iter_open_loop] at hs
  | cons pkg rest ih =>
    intro s hs
    cases hv : pkg.has_versions with
    | false =>
      exact ih st (fun p hp => hsub p (List.mem_cons_of_mem pkg hp)) s
        (by simpa [iter_open_loop, hv] using hs)
    | true =>
      simp only [iter_open_loop, hv, if_true, List.mem_cons] at hs
      rcases hs with rfl | hs
      · refine ⟨?_, hv⟩
        show getitem bk pkg.fullname_pretty = some pkg
        exact find?_eq_of_nodup_map bk.packages hnd pkg
          (hsub pkg (List.mem_cons_self pkg rest))
      · exact ih _ (fun p hp => hsub p (List.mem_cons_of_mem pkg hp)) s hs

lemma iter_open_loop_set_sub (bk : ABackend) (pkgs : List Package)
    (st : IterCacheState) :
    ∀ s ∈ (iter_open_loop bk pkgs st).1, st._set ⊆ s.state._set := by
  induction pkgs generalizing st with
  | nil => intro s hs; simp [iter_open_loop] at hs
  | cons pkg rest ih =>
    intro s hs
    cases hv : pkg.has_versions with
    | false => exact ih st s (by simpa [iter_open_loop, hv] using hs)
    | true =>
      simp only [iter_open_loop, hv, if_true, List.mem_cons] at hs
      rcases hs with rfl | hs
      · exact fun a ha => List.mem_insert_of_mem ha
      · exact fun a ha =>
          ih _ s hs (List.mem_insert_of_mem ha)

lemma iter_open_loop_at_yield (bk : ABackend) (pkgs : List Package)
    (st : IterCacheState) :
    ∀ s ∈ (iter_open_loop bk pkgs st).1,
      s.src.fullname_pretty ∈ s.state._set ∧
      (s.state._have_multi_arch = true →
        s.src.fullname_full ∈ s.state._fullnameset) := by
  induction pkgs generalizing st with
  | nil => intro s hs; simp [iter_open_loop] at hs
  | cons pkg rest ih =>
    intro s hs
    cases hv : pkg.has_versions with
    | false => exact ih st s (by simpa [iter_open_loop, hv] using hs)
    | true =>
      simp only [iter_open_loop, hv, if_true, List.mem_cons] at hs
      rcases hs with rfl | hs
      · constructor
        · exact List.mem_insert_self _ _
        · intro hma
          simp only at hma
          simp [hma, List.mem_insert_self]
      · exact ih { st with
          _set := st._set.insert pkg.fullname_pretty,
          _fullnameset :=
            if st._have_multi_arch then
              st._fullnameset.insert pkg.fullname_full
            else st._fullnameset } s hs

lemma iter_open_loop_mono_split (bk : ABackend) (pkgs : List Package)
    (st : IterCacheState) :
    ∀ done s rest, (iter_open_loop bk pkgs st).1 = done ++ s :: rest →
      ∀ d ∈ done, d.src.fullname_pretty ∈ s.state._set := by
  induction pkgs generalizing st with
  | nil =>
    intro done s rest h
    exfalso
    have hlen := congrArg List.length h
    simp [iter_open_loop] at hlen
    omega
  | cons pkg rest0 ih =>
    intro done s rest h d hd
    cases hv : pkg.has_versions with
    | false =>
      exact ih st done s rest (by simpa [iter_open_loop, hv] using h) d hd
    | true =>
      simp only [iter_open_loop, hv, if_true] at h
      cases done with
      | nil => cases hd
      | cons d0 done1 =>
        rw [List.cons_append] at h
        injection h with h0 h1
        rcases List.mem_cons.mp hd with rfl | hd1
        · have hs_mem : s ∈ (iter_open_loop bk rest0
              { st with
                _set := st._set.insert pkg.fullname_pretty,
                _fullnameset :=
                  if st._have_multi_arch then
                    st._fullnameset.insert pkg.fullname_full
                  else st._fullnameset }).1 := by
            rw [h1]
            exact List.mem_append_right done1 (List.mem_cons_self s rest)
          have hsub := iter_open_loop_set_sub bk rest0 _ s hs_mem
          have hd_name : d.src.fullname_pretty = pkg.fullname_pretty := by
            rw [← h0]
          rw [hd_name]
          exact hsub (List.mem_insert_self _ _)
        · exact ih _ done1 s rest h1 d hd1

lemma iter_open_loop_rough (bk : ABackend) (pkgs : List Package)
    (st : IterCacheState) :
    ∀ s ∈ (iter_open_loop bk pkgs st).1,
      s.state.rough_size = st.rough_size := by
  induction pkgs generalizing st with
  | nil => intro s hs; simp [iter_open_loop] at hs
  | cons pkg rest ih =>
    intro s hs
    cases hv : pkg.has_versions with
    | false => exact ih st s (by simpa [iter_open_loop, hv] using hs)
    | true =>
      simp only [iter_open_loop, hv, if_true, List.mem_cons] at hs
      rcases hs with rfl | hs
      · rfl
      · exact ih { st with
          _set := st._set.insert pkg.fullname_pretty,
          _fullnameset :=
            if st._have_multi_arch then
              st._fullnameset.insert pkg.fullname_full
            else st._fullnameset } s hs

/-- C6: every package yielded by `iter_open` corresponds to a backend
record whose `has_versions` flag is true — versionless records are
skipped at the source — and (with the backend's fullnames forming a
proper unique key, as in apt) the yielded object is exactly that
record. -/
theorem spec_C6 (backend : ABackend) (st : IterCacheState)
    (hnd : ((st._cache.getD backend).packages.map
      Package.fullname_pretty).Nodup) :
    ∀ s ∈ (iter_open backend st).steps,
      s.yielded = some s.src ∧ s.src.has_versions = true := by
  intro s hs
  cases hc : st._cache with
  | none =>
    rw [hc, Option.getD_none] at hnd
    have hsteps : (iter_open backend st).steps
        = (iter_open_loop backend backend.packages
            (pre_iter_open backend st)).1 := by
      simp [iter_open, hc]
    rw [hsteps] at hs
    exact iter_open_loop_yielded backend backend.packages _ hnd
      (fun p hp => hp) s hs
  | some cb =>
    rw [hc, Option.getD_some] at hnd
    have hsteps : (iter_open backend st).steps
        = (iter_open_loop cb cb.packages st).1 := by
      simp [iter_open, hc]
    rw [hsteps] at hs
    exact iter_open_loop_yielded cb cb.packages st hnd (fun p hp => hp) s hs

/-- Witness for C6 on the catalog with a leading versionless cruft
record: the first yielded package is the backend record `foo-dev`
(cruft was skipped) and it has versions. -/
theorem spec_C6_witness :
    ((iter_open bkWithCruft initState).steps.head (by decide)).yielded
      = some ((iter_open bkWithCruft initState).steps.head (by decide)).src ∧
    ((iter_open bkWithCruft initState).steps.head
      (by decide)).src.has_versions = true :=
  spec_C6 bkWithCruft initState (by decide) _ (List.head_mem _)

/-- C7: at the moment a record is yielded by `iter_open` its pretty
fullname is already in the name index `_set` (and, on a multi-arch
platform, its full name is in `_fullnameset`); moreover at every later
yield point all previously yielded names are still in `_set`, so a
consumer that stops pulling keeps every name produced so far in the
index. -/
theorem spec_C7 (backend : ABackend) (st : IterCacheState) :
    (∀ s ∈ (iter_open backend st).steps,
      s.src.fullname_pretty ∈ s.state._set ∧
      (s.state._have_multi_arch = true →
        s.src.fullname_full ∈ s.state._fullnameset)) ∧
    (∀ done s rest, (iter_open backend st).steps = done ++ s :: rest →
      ∀ d ∈ done, d.src.fullname_pretty ∈ s.state._set) := by
  cases hc : st._cache with
  | none =>
    have hsteps : (iter_open backend st).steps
        = (iter_open_loop backend backend.packages
            (pre_iter_open backend st)).1 := by
      simp [iter_open, hc]
    constructor
    · intro s hs
      rw [hsteps] at hs
      exact iter_open_loop_at_yield backend backend.packages _ s hs
    · intro done s rest h
      rw [hsteps] at h
      exact iter_open_loop_mono_split backend backend.packages _ done s rest h
  | some cb =>
    have hsteps : (iter_open backend st).steps
        = (iter_open_loop cb cb.packages st).1 := by
      simp [iter_open, hc]
    constructor
    · intro s hs
      rw [hsteps] at hs
      exact iter_open_loop_at_yield cb cb.packages st s hs
    · intro done s rest h
      rw [hsteps] at h
      exact iter_open_loop_mono_split cb cb.packages st done s rest h

/-- Witness for C7 on the multi-arch scenario catalog: the second
yield has its full name in the multi-arch index, and the first yield's
name is still in the name index at the second yield. -/
theorem spec_C7_witness :
    (((iter_open bkMulti initState).steps.get ⟨1, by decide⟩).src.fullname_full
      ∈ ((iter_open bkMulti initState).steps.get
          ⟨1, by decide⟩).state._fullnameset) ∧
    (((iter_open bkMulti initState).steps.get ⟨0, by decide⟩).src.fullname_pretty
      ∈ ((iter_open bkMulti initState).steps.get ⟨1, by decide⟩).state._set) :=
  ⟨((spec_C7 bkMulti initState).1 _ (List.get_mem _ _ _)).2 (by decide),
   (spec_C7 bkMulti initState).2
     [(iter_open bkMulti initState).steps.get ⟨0, by decide⟩]
     ((iter_open bkMulti initState).steps.get ⟨1, by decide⟩) []
     (by decide) _ (List.mem_singleton_self _)⟩

/-- C8 counterexample: in `_pre_iter_open` the index resets do NOT
happen before reconnecting — the statement order of `apttool.py`
1965-1978 reconnects (`self._cache = apt_pkg.Cache(progress)`) first
and clears the name index afterwards. -/
theorem spec_C8_counterexample :
    ¬ (pre_iter_open_ops.indexOf PreOpenOp.clearSet
        < pre_iter_open_ops.indexOf PreOpenOp.connectCache) := by
  decide

/-- C8 (amended): `_pre_iter_open` is idempotent — its resulting state
is independent of the prior state — and every call resets all internal
state (empty name index, empty multi-arch index, no sorted set, no
weak references) and sets `rough_size` to the (non-negative) backend
package count; the resets run after the reconnect, not before, and
`rough_size` is in place before any record is yielded. -/
theorem spec_C8 (backend : ABackend) (st st' : IterCacheState) :
    pre_iter_open backend st = pre_iter_open backend st' ∧
    pre_iter_open backend st =
      { _cache := some backend, _set := [], _fullnameset := [],
        _sorted_set := none, _weakref := [],
        _have_multi_arch := decide (1 < backend.architectures.length),
        rough_size := some backend.packages.length } ∧
    pre_iter_open_ops.indexOf PreOpenOp.connectCache
      < pre_iter_open_ops.indexOf PreOpenOp.clearSet ∧
    (st._cache = none →
      ∀ s ∈ (iter_open backend st).steps,
        s.state.rough_size = some backend.packages.length) := by
  refine ⟨rfl, rfl, by decide, ?_⟩
  intro hc s hs
  have hsteps : (iter_open backend st).steps
      = (iter_open_loop backend backend.packages
          (pre_iter_open backend st)).1 := by
    simp [iter_open, hc]
  rw [hsteps] at hs
  exact iter_open_loop_rough backend backend.packages _ s hs

/-- Witness for C8 on the fresh scenario catalog: the state at the
first yield already carries `rough_size = 2`. -/
theorem spec_C8_witness :
    ((iter_open bkScenario initState).steps.head
      (by decide)).state.rough_size = some 2 :=
  (spec_C8 bkScenario initState initState).2.2.2 rfl _ (List.head_mem _)

/-- C9 counterexample: running `iter_open` again on the scenario
catalog after a completed first pass performs no `_pre_iter_open`
reset (the flag is `false`), even though the second pass does yield
records and the name index left by the first pass is non-empty (so it
was not cleared, and the backend was not reconnected, before the new
pass's first yield). -/
theorem spec_C9_counterexample :
    (iter_open bkScenario
        (iter_open bkScenario initState).final).preOpenPerformed = false ∧
    (iter_open bkScenario (iter_open bkScenario initState).final).steps ≠ [] ∧
    (iter_open bkScenario initState).final._set ≠ [] := by
  decide

/-- C9 (amended): once a backend handle is present (`self._cache` not
`None`), a subsequent `iter_open` performs no `_pre_iter_open` reset —
no clearing, no reconnection: the enumeration re-runs over the stored
backend from the caller's current state — although it does start again
from the beginning, covering every versioned package. -/
theorem spec_C9 (backend cb : ABackend) (st : IterCacheState)
    (hc : st._cache = some cb) :
    (iter_open backend st).preOpenPerformed = false ∧
    (iter_open backend st).steps = (iter_open_loop cb cb.packages st).1 ∧
    (iter_open backend st).steps.map YieldStep.src
      = cb.packages.filter (fun p => p.has_versions) := by
  have h1 : iter_open backend st
      = ⟨false, (iter_open_loop cb cb.packages st).1,
          (iter_open_loop cb cb.packages st).2⟩ := by
    simp [iter_open, hc]
  refine ⟨by rw [h1], by rw [h1], ?_⟩
  rw [h1]
  exact iter_open_loop_src cb cb.packages st

/-- Witness for C9 on the scenario catalog after a completed first
pass. -/
theorem spec_C9_witness :
    (iter_open bkScenario
        (iter_open bkScenario initState).final).preOpenPerformed = false :=
  (spec_C9 bkScenario bkScenario
    (iter_open bkScenario initState).final (by decide)).1

/-- C5 counterexample: for the unbalanced pattern `"("` (a regex
engine on which compilation fails), `cmd_search` raises
`BadSearchQuery` — but only after it has already invoked the catalog's
`_pre_iter_open` (line 680, to display `rough_size`), so pre-open IS
performed for the failing query. -/
theorem spec_C5_counterexample :
    SEvent.preOpenEv
      ∈ cmd_search_trace badCompile "(" false true false .every bkScenario ∧
    cmd_search_trace badCompile "(" false true false .every bkScenario
      = [SEvent.preOpenEv, SEvent.compileFailEv "(" reErrUnbalanced] := by
  constructor
  · simp [cmd_search_trace]
  · rfl

/-- C5 (amended): a pattern that fails to compile makes the query fail
with `BadSearchQuery` (carrying the pattern text and the regex-engine
error) before the enumeration begins: inside `search_itercache` with a
not-yet-opened cache the compile error is the only event — `iter_open`
and hence `_pre_iter_open` are never invoked and nothing is yielded.
`cmd_search`, however, eagerly pre-opens the catalog to display
`rough_size` before iterating `search_itercache`, so for that code
path `_pre_iter_open` runs even though the pattern is invalid. -/
theorem spec_C5 (compile : String → Bool → Except String Pat)
    (regex : String) (ci ds rv : Bool) (ist : InstallStateFilter)
    (backend : ABackend) (e : String)
    (h : compile regex ci = .error e) :
    search_itercache_trace compile regex ci ds rv ist backend initState
      = [SEvent.compileFailEv regex e] ∧
    cmd_search_trace compile regex ci ds rv ist backend
      = [SEvent.preOpenEv, SEvent.compileFailEv regex e] := by
  constructor
  · simp [search_itercache_trace, h]
  · simp [cmd_search_trace, search_itercache_trace, h]

/-- Witness for C5 at the failing engine for `"("`. -/
theorem spec_C5_witness :
    search_itercache_trace badCompile "(" false true false .every bkScenario
        initState
      = [SEvent.compileFailEv "(" reErrUnbalanced] :=
  (spec_C5 badCompile "(" false true false .every bkScenario
    reErrUnbalanced rfl).1

lemma cmd_history_loop_none (lines : List HistoryLine) (total : Nat) :
    cmd_history_loop none none lines total = (lines, total + lines.length) := by
  induction lines generalizing total with
  | nil => simp [cmd_history_loop]
  | cons h rest ih =>
    simp only [cmd_history_loop, historyline_matches, cnt_exceeded,
      Bool.false_eq_true, if_false, if_true, ih]
    rw [Prod.mk.injEq]
    refine ⟨rfl, ?_⟩
    simp [List.length_cons]
    omega

/-- C10: `HistoryLine.matches(None)` returns `True` for every history
line (despite the method's docstring announcing `False`), and
consequently `cmd_history` with no filter text and no count limit
prints every parsed history line and reports their full number. -/
theorem spec_C10 :
    (∀ h : HistoryLine, historyline_matches h none = true) ∧
    (∀ lines : List HistoryLine,
      cmd_history_run none none lines = (lines, lines.length)) := by
  constructor
  · intro h
    rfl
  · intro lines
    simpa [cmd_history_run] using cmd_history_loop_none lines 0
